import Mathlib

/-!
# Verification of `bevy_ecs::system::system_registry`

A shallow embedding of `crates/bevy_ecs/src/system/system_registry.rs`.

The Rust module stores type-erased systems in a `SystemRegistry` resource
living inside the `World`, and runs them either ad hoc (`SystemRegistry::run`)
or by a registered `SystemId` (`SystemRegistry::run_by_id`).  The `World`
entry points (`register_system`, `run_system`, `run_system_by_id`) guard on
the presence of the registry resource and use `resource_scope` to detach the
registry while a system executes.

Modelling decisions:
* A system body (`runFn`) consumes its cached `Local` state and the resource
  payload of the world (abstracted as a single `counter : Nat`) and produces a
  new payload, new local state, and a list of queued commands — exactly the
  capabilities of a non-exclusive bevy function system (it cannot touch the
  registry slot directly; reentrancy is only reachable through queued
  commands, which receive the full world).
* `u32` arithmetic is `Nat` with an explicit `% 2^32` where the source adds
  (the `self.last_id + 1` of `register`), matching release-mode wrapping.
* Rust panics (`panic!`, `Result::unwrap` on `Err`) are `Except.error` with
  the panic message; a propagating panic skips the `resource_scope`
  reinsertion, as unwinding does in the source.
* The `HashMap<u32, (bool, BoxedSystem)>` is an association list with
  first-match lookup; all map claims are stated through `lookupSys`.
* Execution appends `Event`s to an instrumentation trace recording which
  lifecycle step ran, the `Local` state a run consumed, and whether the
  registry resource was attached to the world at that moment.
* Nested command application is the one genuinely recursive path
  (`apply` of a queued run command calls back into `World.run_system`), so
  the semantics carries a fuel parameter that only decreases there; every
  claim holds for every fuel large enough to cover the (always finite,
  because the recursion guard aborts) nesting actually exercised.
-/

/-- Instrumentation record of a single lifecycle step of a boxed system:
which step ran, for the system with which `code`, which `Local` state a run
consumed, and whether the `SystemRegistry` resource was attached to the
world at that moment. -/
inductive Event where
  | init (code : Nat) (regPresent : Bool)
  | run (code : Nat) (locUsed : Nat) (regPresent : Bool)
  | applyDeferred (code : Nat) (regPresent : Bool)
deriving DecidableEq

/-- A deferred command queued by a system body: either a plain payload
mutation, or one of the two run-command adapters of the source module
(`RunSystemCommand` wrapping a system, `RunSystemById` wrapping an id). -/
inductive Cmd where
  | mutate (f : Nat → Nat)
  | runSys (code : Nat) (initLoc : Nat) (runFn : Nat → Nat → Nat × Nat × List Cmd)
  | runSysById (id : Nat)

/-- The logic of a system, as handed to `IntoSystem::into_system`:
a structural tag `code`, the default value of its `Local` state, and the
body `runFn : local → payload → payload × local × queued commands`. -/
structure SysDef where
  code : Nat
  initLoc : Nat
  runFn : Nat → Nat → Nat × Nat × List Cmd

/-- The `RunSystemCommand`-shaped command built from a `SysDef`. -/
def Cmd.ofSys (s : SysDef) : Cmd :=
  Cmd.runSys s.code s.initLoc s.runFn

/-- Returns `true` exactly for plain payload mutations (commands that do not try to
run another one-shot system). -/
def Cmd.isMutate : Cmd → Bool
  | .mutate _ => true
  | _ => false

/-- A type-erased stored system (`BoxedSystem`): its definition, its cached
`Local` state (absent until `initialize` has run), and the commands queued
by runs that have not been flushed yet. -/
structure BoxedSystem where
  sd : SysDef
  locState : Option Nat
  queued : List Cmd

/-- Model of `Box::new(IntoSystem::into_system(system))`: a fresh, uninitialized
boxed system. -/
def freshBox (s : SysDef) : BoxedSystem :=
  { sd := s, locState := none, queued := [] }

/-- Model of `SystemId(u32)`: the opaque handle returned by `register`. -/
structure SystemId where
  val : Nat
deriving DecidableEq

/-- Model of `SystemRegistryError`: the single recoverable failure. -/
inductive SystemRegistryError where
  | systemIdNotRegistered (id : SystemId)
deriving DecidableEq

/-- Model of `SystemRegistry`: the id counter and the id-keyed map of
(initialization flag, boxed system) pairs. -/
structure SystemRegistry where
  last_id : Nat
  systems : List (Nat × Bool × BoxedSystem)

/-- The default (`Default`-derived) registry: counter 0, empty map. -/
def emptyRegistry : SystemRegistry :=
  { last_id := 0, systems := [] }

/-- The world: an optional `SystemRegistry` resource slot, the abstract
resource payload every system reads and writes, and the instrumentation
trace (most recent event first). -/
structure World where
  registry : Option SystemRegistry
  counter : Nat
  trace : List Event

/-- First-match lookup in the systems map (`HashMap::get`). -/
def lookupSys : List (Nat × Bool × BoxedSystem) → Nat → Option (Bool × BoxedSystem)
  | [], _ => none
  | e :: rest, k => if e.1 = k then some e.2 else lookupSys rest k

/-- Remove every binding of a key (`HashMap::remove`; keys are unique in
every map the module builds). -/
def eraseSys : List (Nat × Bool × BoxedSystem) → Nat → List (Nat × Bool × BoxedSystem)
  | [], _ => []
  | e :: rest, k => if e.1 = k then eraseSys rest k else e :: eraseSys rest k

/-- Key-replacing insertion (`HashMap::insert`). -/
def insertSys (m : List (Nat × Bool × BoxedSystem)) (k : Nat) (v : Bool × BoxedSystem) :
    List (Nat × Bool × BoxedSystem) :=
  (k, v) :: eraseSys m k

/-- In-place update of the first binding of a key (the effect of mutating
through `HashMap::get_mut`). -/
def updateSys : List (Nat × Bool × BoxedSystem) → Nat → (Bool × BoxedSystem) →
    List (Nat × Bool × BoxedSystem)
  | [], _, _ => []
  | e :: rest, k, v => if e.1 = k then (k, v) :: rest else e :: updateSys rest k v

/-- The value `2^32`: the modulus of the `u32` id arithmetic in the source. -/
def u32Size : Nat := 4294967296

/-- Model of `SystemRegistry::register`: bump `last_id` (u32 wrapping addition),
insert a fresh uninitialized boxed system under the new id, return the id. -/
def SystemRegistry.register (r : SystemRegistry) (s : SysDef) : SystemRegistry × SystemId :=
  let id := (r.last_id + 1) % u32Size
  ({ last_id := id, systems := insertSys r.systems id (false, freshBox s) }, ⟨id⟩)

/-- Model of `SystemRegistry::remove`: drop the binding of `id` if present. -/
def SystemRegistry.remove (r : SystemRegistry) (id : SystemId) : SystemRegistry :=
  { r with systems := eraseSys r.systems id.val }

/-- Push an instrumentation event onto the trace. -/
def addEvent (w : World) (e : Event) : World :=
  { w with trace := e :: w.trace }

/-- The `panic!` message of the three `World` guards and of
`RunSystemById::apply`. -/
def panicMsg : String :=
  "SystemRegistry not found: Nested and recursive one-shot systems are not supported"

/-- The panic a bevy system raises when run before `initialize`. -/
def stateMissingMsg : String :=
  "system state missing: run called before initialization was performed"

/-- The panic of the `.unwrap()` in `RunSystemById::apply`. -/
def unwrapMsg : String :=
  "called Result::unwrap on an Err value: SystemIdNotRegistered"

/-- Artifact of the fuel-indexed model, never reachable with enough fuel. -/
def fuelMsg : String := "model fuel exhausted"

/-- Model of `System::initialize`: wire the system to the world (here: create its
`Local` state at its default value) and record the event. -/
def boxedInit (b : BoxedSystem) (w : World) : BoxedSystem × World :=
  ({ b with locState := some b.sd.initLoc },
   addEvent w (.init b.sd.code w.registry.isSome))

/-- Model of `System::run`: feed the cached `Local` state and the payload to the
body; store the new local state, append the queued commands, record the
event.  Running an uninitialized system is a panic. -/
def boxedRun (b : BoxedSystem) (w : World) : Except String (BoxedSystem × World) :=
  match b.locState with
  | none => .error stateMissingMsg
  | some l =>
    let out := b.sd.runFn l w.counter
    .ok ({ b with locState := some out.2.1, queued := b.queued ++ out.2.2 },
         { addEvent w (.run b.sd.code l w.registry.isSome) with counter := out.1 })

mutual

/-- Model of `Command::apply` for a single queued command.  The two run-command
adapters call back into the `World` entry points; only there does the fuel
decrease. -/
def applyCmd : Nat → Cmd → World → Except String World
  | _, .mutate f, w => .ok { w with counter := f w.counter }
  | 0, .runSys _ _ _, _ => .error fuelMsg
  | fuel + 1, .runSys code il rf, w => World.run_system fuel ⟨code, il, rf⟩ w
  | 0, .runSysById _, _ => .error fuelMsg
  | fuel + 1, .runSysById id, w => runSystemByIdApply fuel id w
termination_by fuel _c _w => (fuel, 1, 0)

/-- Apply a queue of commands in enqueue order, stopping at the first
panic. -/
def applyCmds : Nat → List Cmd → World → Except String World
  | _, [], w => .ok w
  | fuel, c :: cs, w =>
    match applyCmd fuel c w with
    | .error e => .error e
    | .ok w' => applyCmds fuel cs w'
termination_by fuel cs _w => (fuel, 2, cs.length)

/-- Model of `System::apply_deferred`: record the event, flush the queued commands in
order, clear the queue. -/
def boxedApplyDeferred : Nat → BoxedSystem → World → Except String (BoxedSystem × World)
  | fuel, b, w =>
    match applyCmds fuel b.queued (addEvent w (.applyDeferred b.sd.code w.registry.isSome)) with
    | .error e => .error e
    | .ok w' => .ok ({ b with queued := [] }, w')
termination_by fuel _b _w => (fuel, 3, 0)

/-- Model of `SystemRegistry::run` (the ad hoc path): box the system fresh,
initialize it, run it, apply its queued commands, discard it.  The registry
itself (`&mut self`) is untouched. -/
def SystemRegistry.run : Nat → SystemRegistry → SysDef → World →
    Except String (SystemRegistry × World)
  | fuel, r, s, w =>
    let iw := boxedInit (freshBox s) w
    match boxedRun iw.1 iw.2 with
    | .error e => .error e
    | .ok (b2, w2) =>
      match boxedApplyDeferred fuel b2 w2 with
      | .error e => .error e
      | .ok (_, w3) => .ok (r, w3)
termination_by fuel _r _s _w => (fuel, 4, 0)

/-- Model of `SystemRegistry::run_by_id`: look the id up; absent ids yield the
recoverable error and touch nothing; present ids are initialized on first
use (flag flips to `true`), run, and flushed, and the updated boxed system
is stored back. -/
def SystemRegistry.run_by_id : Nat → SystemRegistry → Nat → World →
    Except String (SystemRegistry × World × Option SystemRegistryError)
  | fuel, r, id, w =>
    match lookupSys r.systems id with
    | none => .ok (r, w, some (.systemIdNotRegistered ⟨id⟩))
    | some (initialized, b0) =>
      let iw := if initialized then (b0, w) else boxedInit b0 w
      match boxedRun iw.1 iw.2 with
      | .error e => .error e
      | .ok (b2, w2) =>
        match boxedApplyDeferred fuel b2 w2 with
        | .error e => .error e
        | .ok (b3, w3) =>
          .ok ({ r with systems := updateSys r.systems id (true, b3) }, w3, none)
termination_by fuel _r _i _w => (fuel, 4, 0)

/-- Model of `World::run_system`: panic if the registry resource is absent,
otherwise `resource_scope`: detach the registry, run ad hoc on the
registry-free world, reattach on return. -/
def World.run_system : Nat → SysDef → World → Except String World
  | fuel, s, w =>
    match w.registry with
    | none => .error panicMsg
    | some reg =>
      match SystemRegistry.run fuel reg s { w with registry := none } with
      | .error e => .error e
      | .ok (reg', w') => .ok { w' with registry := some reg' }
termination_by fuel _s _w => (fuel, 5, 0)

/-- Model of `World::run_system_by_id`: panic if the registry resource is absent,
otherwise `resource_scope` around `run_by_id`; the registry is reattached
before the `Result` — `Ok` or `Err` alike — is returned. -/
def World.run_system_by_id : Nat → Nat → World →
    Except String (World × Option SystemRegistryError)
  | fuel, id, w =>
    match w.registry with
    | none => .error panicMsg
    | some reg =>
      match SystemRegistry.run_by_id fuel reg id { w with registry := none } with
      | .error e => .error e
      | .ok (reg', w', res) => .ok ({ w' with registry := some reg' }, res)

/-- Model of `RunSystemById::apply`: guard on the registry resource, then
`resource_scope` around `run_by_id().unwrap()` — the unwrap panics inside
the scope, so a recoverable error escalates to an abort without
reattachment. -/
def runSystemByIdApply : Nat → Nat → World → Except String World
  | fuel, id, w =>
    match w.registry with
    | none => .error panicMsg
    | some reg =>
      match SystemRegistry.run_by_id fuel reg id { w with registry := none } with
      | .error e => .error e
      | .ok (reg', w', res) =>
        match res with
        | some _ => .error unwrapMsg
        | none => .ok { w' with registry := some reg' }
termination_by fuel _i _w => (fuel, 5, 0)

end

/-- Model of `World::register_system`: panic if the registry resource is absent,
otherwise register through `resource_mut` (the registry stays attached). -/
def World.register_system (w : World) (s : SysDef) : Except String (World × SystemId) :=
  match w.registry with
  | none => .error panicMsg
  | some reg =>
    let out := reg.register s
    .ok ({ w with registry := some out.1 }, out.2)

/-- The `RunSystemCommand` adapter: wraps the system to run ad hoc. -/
structure RunSystemCommand where
  system : SysDef

/-- Model of `RunSystemCommand::apply`: it is exactly `world.run_system(self.system)`. -/
def RunSystemCommand.apply (fuel : Nat) (c : RunSystemCommand) (w : World) :
    Except String World :=
  World.run_system fuel c.system w

/-- The `RunSystemById` adapter: wraps the id to run. -/
structure RunSystemById where
  system_id : SystemId

/-- Model of `RunSystemById::apply` (see `runSystemByIdApply`). -/
def RunSystemById.apply (fuel : Nat) (c : RunSystemById) (w : World) :
    Except String World :=
  runSystemByIdApply fuel c.system_id.val w

/-- A concrete system: increments the payload, keeps its local state,
queues nothing. -/
def countUp : SysDef :=
  { code := 1, initLoc := 0, runFn := fun l c => (c + 1, l, []) }

/-- A concrete system that queues a nested one-shot run (the
`system_recursion` test scenario): its deferred command tries to
`run_system` another system. -/
def nestSys : SysDef :=
  { code := 2, initLoc := 0, runFn := fun l c => (c, l, [Cmd.ofSys countUp]) }

/-- A concrete system with meaningful cached `Local` state (the
`doubling` of the `local_variables` test): adds the cached value to the counter,
then caches the new counter. -/
def doubling : SysDef :=
  { code := 3, initLoc := 0, runFn := fun l c => (c + l, c + l, []) }

/-- A world holding the default registry, payload 0, empty trace. -/
def w0 : World :=
  { registry := some emptyRegistry, counter := 0, trace := [] }

/-- A system is nest-free when every command it ever queues is a plain
payload mutation (it never requests another one-shot run). -/
def NestFree (s : SysDef) : Prop :=
  ∀ l c, ∀ cm ∈ (s.runFn l c).2.2, cm.isMutate = true

section MapLemmas

theorem lookupSys_eraseSys_self (m : List (Nat × Bool × BoxedSystem)) (k : Nat) :
    lookupSys (eraseSys m k) k = none := by
  induction m with
  | nil => simp [eraseSys, lookupSys]
  | cons e rest ih =>
    by_cases h : e.1 = k <;> simp [eraseSys, lookupSys, h, ih]

theorem lookupSys_eraseSys_ne (m : List (Nat × Bool × BoxedSystem)) {k k' : Nat}
    (h : k' ≠ k) : lookupSys (eraseSys m k) k' = lookupSys m k' := by
  have h3 : k ≠ k' := Ne.symm h
  induction m with
  | nil => simp [eraseSys]
  | cons e rest ih =>
    by_cases h1 : e.1 = k
    · have h2 : e.1 ≠ k' := by rw [h1]; exact h3
      simp [eraseSys, lookupSys, h1, h2, ih, h, h3]
    · by_cases h2 : e.1 = k' <;>
        simp [eraseSys, lookupSys, h1, h2, ih, h, h3]

theorem eraseSys_of_lookup_none (m : List (Nat × Bool × BoxedSystem)) (k : Nat)
    (h : lookupSys m k = none) : eraseSys m k = m := by
  induction m with
  | nil => simp [eraseSys]
  | cons e rest ih =>
    by_cases h1 : e.1 = k
    · simp [lookupSys, h1] at h
    · simp [lookupSys, h1] at h
      simp [eraseSys, h1, ih h]

theorem lookupSys_insertSys_self (m : List (Nat × Bool × BoxedSystem)) (k : Nat)
    (v : Bool × BoxedSystem) : lookupSys (insertSys m k v) k = some v := by
  simp [insertSys, lookupSys]

theorem lookupSys_insertSys_ne (m : List (Nat × Bool × BoxedSystem)) {k k' : Nat}
    (v : Bool × BoxedSystem) (h : k' ≠ k) :
    lookupSys (insertSys m k v) k' = lookupSys m k' := by
  have h1 : k ≠ k' := fun hh => h hh.symm
  simp [insertSys, lookupSys, h1, lookupSys_eraseSys_ne m h]

theorem lookupSys_updateSys_self (m : List (Nat × Bool × BoxedSystem)) (k : Nat)
    (v : Bool × BoxedSystem) (h : (lookupSys m k).isSome) :
    lookupSys (updateSys m k v) k = some v := by
  induction m with
  | nil => simp [lookupSys] at h
  | cons e rest ih =>
    by_cases h1 : e.1 = k
    · simp [updateSys, lookupSys, h1]
    · simp [lookupSys, h1] at h
      simp [updateSys, lookupSys, h1, ih h]

end MapLemmas

section GuardLemmas

theorem run_system_absent (fuel : Nat) (s : SysDef) (w : World) (h : w.registry = none) :
    World.run_system fuel s w = .error panicMsg := by
  simp [World.run_system, h]

theorem run_system_by_id_absent (fuel : Nat) (id : Nat) (w : World) (h : w.registry = none) :
    World.run_system_by_id fuel id w = .error panicMsg := by
  simp [World.run_system_by_id, h]

theorem runSystemByIdApply_absent (fuel : Nat) (id : Nat) (w : World)
    (h : w.registry = none) : runSystemByIdApply fuel id w = .error panicMsg := by
  simp [runSystemByIdApply, h]

theorem register_system_absent (s : SysDef) (w : World) (h : w.registry = none) :
    World.register_system w s = .error panicMsg := by
  simp [World.register_system, h]

end GuardLemmas

section DetachedCmdLemmas

/-- While the registry is detached, a successful command flush cannot have
run any nested one-shot (those abort on the missing registry), so it leaves
the trace and the (empty) registry slot untouched. -/
theorem applyCmds_detached (fuel : Nat) (cs : List Cmd) :
    ∀ w w' : World, w.registry = none → applyCmds fuel cs w = .ok w' →
      w'.registry = none ∧ w'.trace = w.trace := by
  induction cs with
  | nil =>
    intro w w' hreg h
    simp [applyCmds] at h
    simp [← h, hreg]
  | cons c cs ih =>
    intro w w' hreg h
    cases c with
    | mutate f =>
      simp [applyCmds, applyCmd] at h
      exact ih { w with counter := f w.counter } w' hreg h
    | runSys code il rf =>
      cases fuel with
      | zero => simp [applyCmds, applyCmd] at h
      | succ fuel =>
        simp [applyCmds, applyCmd,
          run_system_absent fuel ⟨code, il, rf⟩ w hreg] at h
    | runSysById id =>
      cases fuel with
      | zero => simp [applyCmds, applyCmd] at h
      | succ fuel =>
        simp [applyCmds, applyCmd, runSystemByIdApply_absent fuel id w hreg] at h

/-- A queue of plain mutations always flushes successfully and touches
neither the registry slot nor the trace. -/
theorem applyCmds_all_mutate (fuel : Nat) (cs : List Cmd) :
    ∀ w : World, (∀ c ∈ cs, c.isMutate = true) →
      ∃ w', applyCmds fuel cs w = .ok w' ∧
        w'.registry = w.registry ∧ w'.trace = w.trace := by
  induction cs with
  | nil => intro w _; exact ⟨w, by simp [applyCmds], rfl, rfl⟩
  | cons c cs ih =>
    intro w hall
    have hc : c.isMutate = true := hall c (by simp)
    cases c with
    | mutate f =>
      obtain ⟨w', hw', hr, ht⟩ :=
        ih { w with counter := f w.counter } (fun c hc => hall c (by simp [hc]))
      exact ⟨w', by simp [applyCmds, applyCmd, hw'], hr, ht⟩
    | runSys code il rf => simp [Cmd.isMutate] at hc
    | runSysById id => simp [Cmd.isMutate] at hc

end DetachedCmdLemmas

section ShapeLemmas

/-- Shape of a successful ad hoc `SystemRegistry::run` on a detached world:
the registry object is returned untouched, the world stays registry-free,
and exactly the three lifecycle events of the fresh box — all recorded with
the registry absent, the run consuming the `Local` default — are added. -/
theorem registry_run_shape (fuel : Nat) (r : SystemRegistry) (s : SysDef)
    (w : World) (rr : SystemRegistry) (ww : World) (hreg : w.registry = none)
    (h : SystemRegistry.run fuel r s w = .ok (rr, ww)) :
    rr = r ∧ ww.registry = none ∧
      ww.trace = .applyDeferred s.code false :: .run s.code s.initLoc false ::
        .init s.code false :: w.trace := by
  rw [SystemRegistry.run] at h
  simp only [boxedInit, freshBox, boxedRun, addEvent, boxedApplyDeferred, hreg,
    Option.isSome_none, List.nil_append] at h
  rcases hac : applyCmds fuel (s.runFn s.initLoc w.counter).2.2
      { registry := none,
        counter := (s.runFn s.initLoc w.counter).1,
        trace := .applyDeferred s.code false :: .run s.code s.initLoc false ::
          .init s.code false :: w.trace } with e | wflushed
  all_goals rw [hac] at h
  · cases h
  · obtain ⟨hreg', htr⟩ := applyCmds_detached fuel _ _ _ rfl hac
    cases h
    exact ⟨rfl, hreg', htr⟩

/-- Running `run_by_id` on an unregistered id: the recoverable error carrying the
id, with registry and world returned exactly as given. -/
theorem run_by_id_unknown (fuel : Nat) (r : SystemRegistry) (id : Nat) (w : World)
    (h : lookupSys r.systems id = none) :
    SystemRegistry.run_by_id fuel r id w =
      .ok (r, w, some (.systemIdNotRegistered ⟨id⟩)) := by
  rw [SystemRegistry.run_by_id, h]

/-- Every return (as opposed to panic) of `run_by_id` on a registered id is
a success whose registry stores the entry back with the flag set. -/
theorem run_by_id_found (fuel : Nat) (r : SystemRegistry) (id : Nat) (w : World)
    (flag : Bool) (b : BoxedSystem) (r' : SystemRegistry) (w' : World)
    (res : Option SystemRegistryError)
    (hlook : lookupSys r.systems id = some (flag, b))
    (h : SystemRegistry.run_by_id fuel r id w = .ok (r', w', res)) :
    res = none ∧
      ∃ b3, r' = { r with systems := updateSys r.systems id (true, b3) } := by
  rw [SystemRegistry.run_by_id, hlook] at h
  cases flag
  · simp only [Bool.false_eq_true, if_false] at h
    rcases hr : boxedRun (boxedInit b w).1 (boxedInit b w).2 with e | ⟨b2, w2⟩
    · rw [hr] at h; cases h
    · simp only [hr] at h
      rcases ha : boxedApplyDeferred fuel b2 w2 with e | ⟨b3, w3⟩
      · rw [ha] at h; cases h
      · simp only [ha, Except.ok.injEq, Prod.mk.injEq] at h
        obtain ⟨h1, h2, h3⟩ := h
        exact ⟨h3.symm, b3, h1.symm⟩
  · simp only [if_true, reduceIte] at h
    rcases hr : boxedRun b w with e | ⟨b2, w2⟩
    · rw [hr] at h; cases h
    · simp only [hr] at h
      rcases ha : boxedApplyDeferred fuel b2 w2 with e | ⟨b3, w3⟩
      · rw [ha] at h; cases h
      · simp only [ha, Except.ok.injEq, Prod.mk.injEq] at h
        obtain ⟨h1, h2, h3⟩ := h
        exact ⟨h3.symm, b3, h1.symm⟩

/-- First `run_by_id` of an uninitialized entry, on a detached world: the
system is initialized (its `Local` state reset to the default), run with the
default local state, flushed, stored back initialized with its queue
cleared, and exactly the three lifecycle events are recorded, all with the
registry absent. -/
theorem run_by_id_first (fuel : Nat) (r : SystemRegistry) (id : Nat) (w : World)
    (b : BoxedSystem) (r' : SystemRegistry) (w' : World)
    (res : Option SystemRegistryError) (hreg : w.registry = none)
    (hlook : lookupSys r.systems id = some (false, b))
    (h : SystemRegistry.run_by_id fuel r id w = .ok (r', w', res)) :
    res = none ∧
      r' = { r with
        systems := updateSys r.systems id
          (true, { b with locState := some ((b.sd.runFn b.sd.initLoc w.counter).2.1), queued := [] }) } ∧
      w'.registry = none ∧
      w'.trace = .applyDeferred b.sd.code false :: .run b.sd.code b.sd.initLoc false ::
        .init b.sd.code false :: w.trace := by
  rw [SystemRegistry.run_by_id, hlook] at h
  simp only [Bool.false_eq_true, if_false, boxedInit, boxedRun, addEvent,
    boxedApplyDeferred, hreg, Option.isSome_none] at h
  rcases hac : applyCmds fuel (b.queued ++ (b.sd.runFn b.sd.initLoc w.counter).2.2)
      { registry := none,
        counter := (b.sd.runFn b.sd.initLoc w.counter).1,
        trace := .applyDeferred b.sd.code false :: .run b.sd.code b.sd.initLoc false ::
          .init b.sd.code false :: w.trace } with e | wflushed
  all_goals rw [hac] at h
  · cases h
  · obtain ⟨hreg', htr⟩ := applyCmds_detached fuel _ _ _ rfl hac
    cases h
    exact ⟨rfl, rfl, hreg', htr⟩

/-- Later `run_by_id` of an initialized entry, on a detached world: no
initialization happens — only a run, consuming the cached `Local` state `l`
of the stored object, and a flush are recorded — and the entry stays
initialized. -/
theorem run_by_id_again (fuel : Nat) (r : SystemRegistry) (id : Nat) (w : World)
    (b : BoxedSystem) (l : Nat) (r' : SystemRegistry) (w' : World)
    (res : Option SystemRegistryError) (hreg : w.registry = none)
    (hlook : lookupSys r.systems id = some (true, b)) (hloc : b.locState = some l)
    (h : SystemRegistry.run_by_id fuel r id w = .ok (r', w', res)) :
    res = none ∧
      r' = { r with
        systems := updateSys r.systems id
          (true, { b with locState := some ((b.sd.runFn l w.counter).2.1), queued := [] }) } ∧
      w'.registry = none ∧
      w'.trace = .applyDeferred b.sd.code false :: .run b.sd.code l false :: w.trace := by
  rw [SystemRegistry.run_by_id, hlook] at h
  simp only [if_true, reduceIte, boxedRun, hloc, addEvent, boxedApplyDeferred,
    hreg, Option.isSome_none] at h
  rcases hac : applyCmds fuel (b.queued ++ (b.sd.runFn l w.counter).2.2)
      { registry := none,
        counter := (b.sd.runFn l w.counter).1,
        trace := .applyDeferred b.sd.code false :: .run b.sd.code l false ::
          w.trace } with e | wflushed
  all_goals rw [hac] at h
  · cases h
  · obtain ⟨hreg', htr⟩ := applyCmds_detached fuel _ _ _ rfl hac
    cases h
    exact ⟨rfl, rfl, hreg', htr⟩

end ShapeLemmas

section WorldLemmas

/-- A successful `World::run_system` reattaches the original registry
object unchanged and records exactly the three lifecycle events of the
fresh system, all with the registry detached. -/
theorem world_run_system_shape (fuel : Nat) (s : SysDef) (w : World)
    (reg : SystemRegistry) (w' : World) (hreg : w.registry = some reg)
    (hok : World.run_system fuel s w = .ok w') :
    w'.registry = some reg ∧
      w'.trace = .applyDeferred s.code false :: .run s.code s.initLoc false ::
        .init s.code false :: w.trace := by
  rw [World.run_system] at hok
  simp only [hreg] at hok
  rcases hsc : SystemRegistry.run fuel reg s { w with registry := none } with e | ⟨rr, ww⟩
  · rw [hsc] at hok; cases hok
  · simp only [hsc, Except.ok.injEq] at hok
    obtain ⟨h1, h2, h3⟩ := registry_run_shape fuel reg s _ rr ww rfl hsc
    subst hok
    exact ⟨by rw [h1], h3⟩

/-- Calling `World::run_system_by_id` on an unknown id returns the recoverable
error and hands back the world unchanged: the registry was reattached on
the error path. -/
theorem world_run_by_id_unknown (fuel : Nat) (id : Nat) (w : World)
    (reg : SystemRegistry) (hreg : w.registry = some reg)
    (hlook : lookupSys reg.systems id = none) :
    World.run_system_by_id fuel id w = .ok (w, some (.systemIdNotRegistered ⟨id⟩)) := by
  rcases w with ⟨wr, wc, wt⟩
  have hsome : wr = some reg := hreg
  subst hsome
  rw [World.run_system_by_id]
  simp [run_by_id_unknown, hlook]

/-- Whenever `World::run_system_by_id` returns (success or recoverable
error), the returned world carries a registry resource again. -/
theorem world_run_by_id_reattaches (fuel : Nat) (id : Nat) (w : World)
    (reg : SystemRegistry) (w' : World) (res : Option SystemRegistryError)
    (hreg : w.registry = some reg)
    (hok : World.run_system_by_id fuel id w = .ok (w', res)) :
    ∃ reg', w'.registry = some reg' := by
  rw [World.run_system_by_id] at hok
  simp only [hreg] at hok
  rcases hsc : SystemRegistry.run_by_id fuel reg id { w with registry := none }
    with e | ⟨rr, ww, rs⟩
  · rw [hsc] at hok; cases hok
  · simp only [hsc, Except.ok.injEq, Prod.mk.injEq] at hok
    obtain ⟨h1, h2⟩ := hok
    exact ⟨rr, by rw [← h1]⟩

/-- Attempting a one-shot run from inside a one-shot run aborts: `nestSys`
queues a run command, that command is applied while the registry is
detached, and its guard panics. -/
theorem run_system_nested_panic (fuel : Nat) (w : World) (reg : SystemRegistry)
    (hreg : w.registry = some reg) :
    World.run_system (fuel + 1) nestSys w = .error panicMsg := by
  rw [World.run_system]
  simp only [hreg]
  rw [SystemRegistry.run]
  simp [boxedInit, boxedRun, freshBox, addEvent, nestSys, Cmd.ofSys, countUp,
    boxedApplyDeferred, applyCmds, applyCmd, run_system_absent]

/-- An ad hoc run of a nest-free system always succeeds and returns the
registry object untouched. -/
theorem registry_run_nestFree (fuel : Nat) (r : SystemRegistry) (s : SysDef)
    (w : World) (hs : NestFree s) :
    ∃ ww, SystemRegistry.run fuel r s w = .ok (r, ww) := by
  rw [SystemRegistry.run]
  simp only [boxedInit, boxedRun, freshBox, addEvent, List.nil_append,
    boxedApplyDeferred]
  obtain ⟨wfl, hfl, _, _⟩ := applyCmds_all_mutate fuel
    ((s.runFn s.initLoc w.counter).2.2)
    { registry := w.registry,
      counter := (s.runFn s.initLoc w.counter).1,
      trace := .applyDeferred s.code w.registry.isSome ::
        .run s.code s.initLoc w.registry.isSome ::
        .init s.code w.registry.isSome :: w.trace }
    (hs s.initLoc w.counter)
  exact ⟨wfl, by rw [hfl]⟩

/-- Calling `World::run_system` of a nest-free system succeeds whenever the
registry resource is present. -/
theorem world_run_system_nestFree (fuel : Nat) (s : SysDef) (w : World)
    (reg : SystemRegistry) (hreg : w.registry = some reg) (hs : NestFree s) :
    ∃ w', World.run_system fuel s w = .ok w' := by
  rw [World.run_system]
  simp only [hreg]
  obtain ⟨ww, hww⟩ := registry_run_nestFree fuel reg s { w with registry := none } hs
  exact ⟨{ ww with registry := some reg }, by rw [hww]⟩

end WorldLemmas

/-- C1: on a world whose registry resource is present, `World::run_system`
and `World::run_system_by_id` detach the registry for the duration of the
execution of the system (every lifecycle event of a successful call is recorded
with the registry absent) and reattach it before returning on every path,
including the unknown-id error path of `run_system_by_id` (which hands the
world back unchanged, registry reattached); and a one-shot invocation
attempted from inside the body of a currently-executing one-shot system
(`nestSys` queues one) finds no registry resource and aborts with the
recursion diagnostic instead of nesting. -/
theorem c1_scoped_detach_reattach (fuel : Nat) (s : SysDef) (id : Nat)
    (w : World) (reg : SystemRegistry) (hreg : w.registry = some reg) :
    (∀ w', World.run_system fuel s w = .ok w' →
      w'.registry = some reg ∧
        w'.trace = .applyDeferred s.code false :: .run s.code s.initLoc false ::
          .init s.code false :: w.trace) ∧
    (∀ w' res, World.run_system_by_id fuel id w = .ok (w', res) →
      ∃ reg', w'.registry = some reg') ∧
    (lookupSys reg.systems id = none →
      World.run_system_by_id fuel id w =
        .ok (w, some (.systemIdNotRegistered ⟨id⟩))) ∧
    World.run_system (fuel + 1) nestSys w = .error panicMsg := by
  refine ⟨?_, ?_, ?_, ?_⟩
  · intro w' h
    exact world_run_system_shape fuel s w reg w' hreg h
  · intro w' res h
    exact world_run_by_id_reattaches fuel id w reg w' res hreg h
  · intro hlook
    exact world_run_by_id_unknown fuel id w reg hreg hlook
  · exact run_system_nested_panic fuel w reg hreg

/-- C1 witness: on `w0` (registry present) the nested invocation aborts
with the recursion diagnostic, and the unknown-id error path of
`run_system_by_id` returns the world unchanged with the registry present. -/
theorem c1_scoped_detach_reattach_witness :
    w0.registry = some emptyRegistry ∧
      lookupSys emptyRegistry.systems 7 = none ∧
      World.run_system 1 nestSys w0 = .error panicMsg ∧
      World.run_system_by_id 1 7 w0 = .ok (w0, some (.systemIdNotRegistered ⟨7⟩)) :=
  ⟨rfl, rfl,
    (c1_scoped_detach_reattach 0 countUp 7 w0 emptyRegistry rfl).2.2.2,
    (c1_scoped_detach_reattach 1 countUp 7 w0 emptyRegistry rfl).2.2.1 rfl⟩

/-- C2: `SystemRegistry::run_by_id` with an id that is not a key of the
systems map returns the unknown-identifier error carrying that id, with the
registry (counter, map, every flag) and the world returned exactly as they
were; with an id that is a key, whenever it returns, the result is
success (never the unknown-identifier error). -/
theorem c2_run_by_id_unknown_or_success (fuel : Nat) (r : SystemRegistry)
    (id : Nat) (w : World) :
    (lookupSys r.systems id = none →
      SystemRegistry.run_by_id fuel r id w =
        .ok (r, w, some (.systemIdNotRegistered ⟨id⟩))) ∧
    (∀ e, lookupSys r.systems id = some e →
      ∀ r' w' res, SystemRegistry.run_by_id fuel r id w = .ok (r', w', res) →
        res = none) := by
  constructor
  · intro h
    exact run_by_id_unknown fuel r id w h
  · rintro ⟨flag, b⟩ hsome r' w' res h
    exact (run_by_id_found fuel r id w flag b r' w' res hsome h).1

/-- C2 witness: id 5 was never registered in the default registry, and
`run_by_id` returns the error carrying 5 with registry and world
untouched. -/
theorem c2_run_by_id_unknown_or_success_witness :
    lookupSys emptyRegistry.systems 5 = none ∧
      SystemRegistry.run_by_id 1 emptyRegistry 5 w0 =
        .ok (emptyRegistry, w0, some (.systemIdNotRegistered ⟨5⟩)) :=
  ⟨rfl, (c2_run_by_id_unknown_or_success 1 emptyRegistry 5 w0).1 rfl⟩

/-- C3: for a registered id, `run_by_id` initializes the stored system
exactly once: whenever a call returns it has stored the entry back with the
flag `true` (never resetting it to uninitialized); on the first call
(flag `false`, invoked as the module does, with the registry detached) the
recorded event sequence is initialize, then run (consuming the `Local`
default), then apply-deferred, all before the call returns; on every later
call (flag `true`) the same stored object is run with its cached `Local`
state `l` and no initialize event is recorded. -/
theorem c3_run_by_id_lifecycle (fuel : Nat) (r : SystemRegistry) (id : Nat)
    (w : World) (flag : Bool) (b : BoxedSystem)
    (hlook : lookupSys r.systems id = some (flag, b)) :
    (∀ r' w' res, SystemRegistry.run_by_id fuel r id w = .ok (r', w', res) →
      res = none ∧ ∃ b3, lookupSys r'.systems id = some (true, b3)) ∧
    (flag = false → w.registry = none →
      ∀ r' w' res, SystemRegistry.run_by_id fuel r id w = .ok (r', w', res) →
        lookupSys r'.systems id = some (true,
          { b with locState := some ((b.sd.runFn b.sd.initLoc w.counter).2.1), queued := [] }) ∧
        w'.trace = .applyDeferred b.sd.code false :: .run b.sd.code b.sd.initLoc false ::
          .init b.sd.code false :: w.trace) ∧
    (flag = true → ∀ l, b.locState = some l → w.registry = none →
      ∀ r' w' res, SystemRegistry.run_by_id fuel r id w = .ok (r', w', res) →
        lookupSys r'.systems id = some (true,
          { b with locState := some ((b.sd.runFn l w.counter).2.1), queued := [] }) ∧
        w'.trace = .applyDeferred b.sd.code false :: .run b.sd.code l false :: w.trace) := by
  have hsome : (lookupSys r.systems id).isSome := by rw [hlook]; rfl
  refine ⟨?_, ?_, ?_⟩
  · intro r' w' res h
    obtain ⟨hres, b3, hr'⟩ := run_by_id_found fuel r id w flag b r' w' res hlook h
    refine ⟨hres, b3, ?_⟩
    rw [hr']
    exact lookupSys_updateSys_self r.systems id (true, b3) hsome
  · intro hflag hreg r' w' res h
    subst hflag
    obtain ⟨_, hr', _, htr⟩ := run_by_id_first fuel r id w b r' w' res hreg hlook h
    refine ⟨?_, htr⟩
    rw [hr']
    exact lookupSys_updateSys_self r.systems id _ hsome
  · intro hflag l hloc hreg r' w' res h
    subst hflag
    obtain ⟨_, hr', _, htr⟩ := run_by_id_again fuel r id w b l r' w' res hreg hlook hloc h
    refine ⟨?_, htr⟩
    rw [hr']
    exact lookupSys_updateSys_self r.systems id _ hsome

/-- C3 witness: register `doubling`, run it once by id on a detached world
with payload 5: the entry was uninitialized, the call succeeds, and
afterwards the entry is stored initialized with cached `Local` state 5 and
the recorded events are apply-deferred, run (with the `Local` default 0),
initialize. -/
theorem c3_run_by_id_lifecycle_witness :
    lookupSys (emptyRegistry.register doubling).1.systems 1 = some (false, freshBox doubling) ∧
      SystemRegistry.run_by_id 1 (emptyRegistry.register doubling).1 1
          { registry := none, counter := 5, trace := [] } =
        .ok ({ last_id := 1,
               systems := [(1, true, { sd := doubling, locState := some 5, queued := [] })] },
             { registry := none, counter := 5,
               trace := [.applyDeferred 3 false, .run 3 0 false, .init 3 false] },
             none) ∧
      lookupSys ({ last_id := 1,
                   systems := [(1, true, { sd := doubling, locState := some 5, queued := [] })] }
          : SystemRegistry).systems 1 =
        some (true, { sd := doubling, locState := some 5, queued := [] }) := by
  have hrun : SystemRegistry.run_by_id 1 (emptyRegistry.register doubling).1 1
      { registry := none, counter := 5, trace := [] } =
    .ok ({ last_id := 1,
           systems := [(1, true, { sd := doubling, locState := some 5, queued := [] })] },
         { registry := none, counter := 5,
           trace := [.applyDeferred 3 false, .run 3 0 false, .init 3 false] },
         none) := by
    simp [SystemRegistry.run_by_id, SystemRegistry.register, emptyRegistry, u32Size,
      insertSys, eraseSys, lookupSys, updateSys, boxedInit, boxedRun, boxedApplyDeferred,
      applyCmds, addEvent, freshBox, doubling]
  refine ⟨rfl, hrun, ?_⟩
  exact ((c3_run_by_id_lifecycle 1 (emptyRegistry.register doubling).1 1
      { registry := none, counter := 5, trace := [] } false (freshBox doubling) rfl).2.1
    rfl rfl _ _ _ hrun).1

/-- C4 (counterexample): the claim "every call to register allocates an
identifier equal to the previous `last_id` plus one, strictly increasing"
fails at the concrete registry state with `last_id = 2^32 - 1` (the state
reached after 2^32 - 1 registrations): the u32 addition wraps and
`register` returns identifier 0, which is neither `last_id + 1` nor
greater than `last_id`. -/
theorem c4_register_counterexample :
    (SystemRegistry.register { last_id := u32Size - 1, systems := [] } countUp).2.val = 0 ∧
      (SystemRegistry.register { last_id := u32Size - 1, systems := [] } countUp).2.val ≠
        ({ last_id := u32Size - 1, systems := [] } : SystemRegistry).last_id + 1 ∧
      ¬ ({ last_id := u32Size - 1, systems := [] } : SystemRegistry).last_id <
        (SystemRegistry.register { last_id := u32Size - 1, systems := [] } countUp).2.val := by
  refine ⟨?_, ?_, ?_⟩ <;> simp [SystemRegistry.register, u32Size]

/-- C4 (amended): while `last_id + 1` stays below 2^32, every `register`
call allocates the fresh identifier `last_id + 1` — so identifiers are
strictly increasing, forming 1, 2, 3, ... from the default registry — and
inserts a new uninitialized entry under it; two calls with structurally
identical logic (`s2` may be `s`) create two independent entries under two
distinct identifiers. -/
theorem c4_register_allocates (r : SystemRegistry) (s s2 : SysDef)
    (h : r.last_id + 1 < u32Size) :
    (r.register s).2.val = r.last_id + 1 ∧
      (r.register s).1.last_id = r.last_id + 1 ∧
      r.last_id < (r.register s).2.val ∧
      lookupSys (r.register s).1.systems (r.last_id + 1) = some (false, freshBox s) ∧
      (r.last_id + 2 < u32Size →
        ((r.register s).1.register s2).2.val = r.last_id + 2 ∧
        (r.register s).2.val ≠ ((r.register s).1.register s2).2.val ∧
        lookupSys ((r.register s).1.register s2).1.systems (r.last_id + 1) =
          some (false, freshBox s) ∧
        lookupSys ((r.register s).1.register s2).1.systems (r.last_id + 2) =
          some (false, freshBox s2)) := by
  have hmod : (r.last_id + 1) % u32Size = r.last_id + 1 := Nat.mod_eq_of_lt h
  refine ⟨?_, ?_, ?_, ?_, ?_⟩
  · simp [SystemRegistry.register, hmod]
  · simp [SystemRegistry.register, hmod]
  · simp [SystemRegistry.register, hmod]
  · simp [SystemRegistry.register, hmod, lookupSys_insertSys_self]
  · intro h2
    have hmod2 : (r.last_id + 1 + 1) % u32Size = r.last_id + 2 := by
      have : r.last_id + 1 + 1 = r.last_id + 2 := by omega
      rw [this]
      exact Nat.mod_eq_of_lt h2
    have hne : r.last_id + 1 ≠ r.last_id + 2 := by omega
    refine ⟨?_, ?_, ?_, ?_⟩
    · simp [SystemRegistry.register, hmod, hmod2]
    · simp [SystemRegistry.register, hmod, hmod2]
    · simp only [SystemRegistry.register, hmod, hmod2]
      rw [lookupSys_insertSys_ne _ _ hne]
      exact lookupSys_insertSys_self _ _ _
    · simp only [SystemRegistry.register, hmod, hmod2]
      exact lookupSys_insertSys_self _ _ _

/-- C4 witness: from the default registry (below the cap), the first two
registrations of the structurally identical `countUp` return 1 and 2, with
two independent uninitialized entries. -/
theorem c4_register_allocates_witness :
    emptyRegistry.last_id + 2 < u32Size ∧
      (emptyRegistry.register countUp).2.val = 1 ∧
      ((emptyRegistry.register countUp).1.register countUp).2.val = 2 ∧
      lookupSys ((emptyRegistry.register countUp).1.register countUp).1.systems 1 =
        some (false, freshBox countUp) ∧
      lookupSys ((emptyRegistry.register countUp).1.register countUp).1.systems 2 =
        some (false, freshBox countUp) := by
  have h := c4_register_allocates emptyRegistry countUp countUp (by decide)
  exact ⟨by decide, h.1, (h.2.2.2.2 (by decide)).1, (h.2.2.2.2 (by decide)).2.2.1,
    (h.2.2.2.2 (by decide)).2.2.2⟩

/-- C10: `register` computes the next identifier as `(last_id + 1) mod
2^32`; the strictly-increasing guarantee holds exactly while `last_id + 1`
is below 2^32, and at `last_id = 2^32 - 1` the addition wraps back to 0,
after which the next registration returns the already-used identifier 1 and
its insert overwrites whatever entry was stored under key 1. -/
theorem c10_register_wraparound (r : SystemRegistry) (s s2 : SysDef) :
    (r.register s).2.val = (r.last_id + 1) % u32Size ∧
      (r.last_id + 1 < u32Size → r.last_id < (r.register s).2.val) ∧
      (r.last_id = u32Size - 1 →
        (r.register s).2.val = 0 ∧
        (r.register s).1.last_id = 0 ∧
        ((r.register s).1.register s2).2.val = 1 ∧
        lookupSys ((r.register s).1.register s2).1.systems 1 =
          some (false, freshBox s2)) := by
  refine ⟨?_, ?_, ?_⟩
  · simp [SystemRegistry.register]
  · intro h
    simp [SystemRegistry.register, Nat.mod_eq_of_lt h]
  · intro hcap
    have hwrap : (r.last_id + 1) % u32Size = 0 := by
      rw [hcap]
      have : u32Size - 1 + 1 = u32Size := by
        have : 0 < u32Size := by decide
        omega
      rw [this, Nat.mod_self]
    have hone : (0 + 1) % u32Size = 1 := by decide
    refine ⟨?_, ?_, ?_, ?_⟩
    · simp [SystemRegistry.register, hwrap]
    · simp [SystemRegistry.register, hwrap]
    · simp [SystemRegistry.register, hwrap, hone]
    · simp only [SystemRegistry.register, hwrap, hone]
      exact lookupSys_insertSys_self _ _ _

/-- C10 witness: a registry at the cap holding an initialized entry under
key 1: the next registration returns 0, the one after returns 1 again, and
the old entry under key 1 is replaced by the fresh uninitialized
`doubling` entry. -/
theorem c10_register_wraparound_witness :
    ({ last_id := u32Size - 1, systems := [(1, true, freshBox countUp)] }
        : SystemRegistry).last_id = u32Size - 1 ∧
      (SystemRegistry.register
        { last_id := u32Size - 1, systems := [(1, true, freshBox countUp)] } doubling).2.val = 0 ∧
      ((SystemRegistry.register
        { last_id := u32Size - 1, systems := [(1, true, freshBox countUp)] } doubling).1.register
          doubling).2.val = 1 ∧
      lookupSys ((SystemRegistry.register
        { last_id := u32Size - 1, systems := [(1, true, freshBox countUp)] } doubling).1.register
          doubling).1.systems 1 = some (false, freshBox doubling) := by
  have h := (c10_register_wraparound
    { last_id := u32Size - 1, systems := [(1, true, freshBox countUp)] } doubling doubling).2.2 rfl
  exact ⟨rfl, h.1, h.2.2.1, h.2.2.2⟩

/-- C5: `World::register_system`, `World::run_system` and
`World::run_system_by_id` abort with the nested/recursive one-shot
diagnostic exactly when the registry resource is absent at call time: when
it is absent all three panic with that message; when it is present,
`register_system` succeeds outright, `run_system` of a nest-free system
succeeds, and `run_system_by_id` of an unknown id returns the recoverable
error normally — none of them aborts on the presence check. -/
theorem c5_world_guard_panics (fuel : Nat) (s : SysDef) (id : Nat) (w : World) :
    (w.registry = none →
      World.register_system w s = .error panicMsg ∧
      World.run_system fuel s w = .error panicMsg ∧
      World.run_system_by_id fuel id w = .error panicMsg) ∧
    (∀ reg, w.registry = some reg →
      World.register_system w s =
        .ok ({ w with registry := some (reg.register s).1 }, (reg.register s).2) ∧
      (NestFree s → ∃ w', World.run_system fuel s w = .ok w') ∧
      (lookupSys reg.systems id = none →
        World.run_system_by_id fuel id w =
          .ok (w, some (.systemIdNotRegistered ⟨id⟩)))) := by
  constructor
  · intro h
    exact ⟨register_system_absent s w h, run_system_absent fuel s w h,
      run_system_by_id_absent fuel id w h⟩
  · intro reg hreg
    refine ⟨?_, ?_, ?_⟩
    · rw [World.register_system, hreg]
    · intro hs
      exact world_run_system_nestFree fuel s w reg hreg hs
    · intro hlook
      exact world_run_by_id_unknown fuel id w reg hreg hlook

/-- C5 witness: on a registry-free world all three entry points panic with
the recursion diagnostic; on `w0` (registry present) `register_system`
succeeds and `run_system_by_id` of the unknown id 9 returns the recoverable
error instead of panicking. -/
theorem c5_world_guard_panics_witness :
    ({ registry := none, counter := 0, trace := [] } : World).registry = none ∧
      World.register_system { registry := none, counter := 0, trace := [] } countUp =
        .error panicMsg ∧
      World.run_system 1 countUp { registry := none, counter := 0, trace := [] } =
        .error panicMsg ∧
      World.run_system_by_id 1 9 { registry := none, counter := 0, trace := [] } =
        .error panicMsg ∧
      World.register_system w0 countUp =
        .ok ({ w0 with registry := some (emptyRegistry.register countUp).1 },
             (emptyRegistry.register countUp).2) ∧
      World.run_system_by_id 1 9 w0 = .ok (w0, some (.systemIdNotRegistered ⟨9⟩)) := by
  have habs := (c5_world_guard_panics 1 countUp 9
    { registry := none, counter := 0, trace := [] }).1 rfl
  have hpres := (c5_world_guard_panics 1 countUp 9 w0).2 emptyRegistry rfl
  exact ⟨rfl, habs.1, habs.2.1, habs.2.2, hpres.1, hpres.2.2 rfl⟩

/-- C6: each ad hoc `SystemRegistry::run` call leaves the registry object —
`last_id` and the systems map — exactly as it was, and runs a freshly
constructed, freshly initialized instance: invoked as the module does (with
the registry detached), a successful call records initialize, run with the
`Local` default (never a cached value), and apply-deferred; consequently
two consecutive `World::run_system` calls with the same logic each record a
run consuming the `Local` default — no cached state flows from the first
call into the second. -/
theorem c6_adhoc_fresh_state (fuel : Nat) (r : SystemRegistry) (s : SysDef)
    (w : World) :
    (∀ rr ww, SystemRegistry.run fuel r s w = .ok (rr, ww) → rr = r) ∧
    (w.registry = none → ∀ rr ww, SystemRegistry.run fuel r s w = .ok (rr, ww) →
      ww.trace = .applyDeferred s.code false :: .run s.code s.initLoc false ::
        .init s.code false :: w.trace) ∧
    (∀ reg, w.registry = some reg → ∀ w1 w2,
      World.run_system fuel s w = .ok w1 → World.run_system fuel s w1 = .ok w2 →
      w2.trace = .applyDeferred s.code false :: .run s.code s.initLoc false ::
        .init s.code false :: .applyDeferred s.code false ::
        .run s.code s.initLoc false :: .init s.code false :: w.trace) := by
  refine ⟨?_, ?_, ?_⟩
  · intro rr ww h
    rw [SystemRegistry.run] at h
    simp only [boxedInit, boxedRun, addEvent, freshBox, boxedApplyDeferred,
      List.nil_append] at h
    rcases hac : applyCmds fuel ((s.runFn s.initLoc w.counter).2.2)
        { registry := w.registry,
          counter := (s.runFn s.initLoc w.counter).1,
          trace := .applyDeferred s.code w.registry.isSome ::
            .run s.code s.initLoc w.registry.isSome ::
            .init s.code w.registry.isSome :: w.trace } with e | wflushed
    all_goals rw [hac] at h
    · cases h
    · cases h; rfl
  · intro hreg rr ww h
    exact (registry_run_shape fuel r s w rr ww hreg h).2.2
  · intro reg hreg w1 w2 h1 h2
    obtain ⟨hreg1, htr1⟩ := world_run_system_shape fuel s w reg w1 hreg h1
    obtain ⟨_, htr2⟩ := world_run_system_shape fuel s w1 reg w2 hreg1 h2
    rw [htr2, htr1]

/-- C6 witness: running `doubling` ad hoc twice from `w0` (payload 0): both
runs record a run event consuming the `Local` default 0 — unlike the
registered path, no cached state carries over — and the registry object is
unchanged. -/
theorem c6_adhoc_fresh_state_witness :
    w0.registry = some emptyRegistry ∧
      World.run_system 1 doubling w0 =
        .ok { registry := some emptyRegistry, counter := 0,
              trace := [.applyDeferred 3 false, .run 3 0 false, .init 3 false] } ∧
      World.run_system 1 doubling
          { registry := some emptyRegistry, counter := 0,
            trace := [.applyDeferred 3 false, .run 3 0 false, .init 3 false] } =
        .ok { registry := some emptyRegistry, counter := 0,
              trace := [.applyDeferred 3 false, .run 3 0 false, .init 3 false,
                        .applyDeferred 3 false, .run 3 0 false, .init 3 false] } ∧
      ({ registry := some emptyRegistry, counter := 0,
         trace := [.applyDeferred 3 false, .run 3 0 false, .init 3 false,
                   .applyDeferred 3 false, .run 3 0 false, .init 3 false] } : World).trace =
        .applyDeferred 3 false :: .run 3 0 false :: .init 3 false ::
        .applyDeferred 3 false :: .run 3 0 false :: .init 3 false :: w0.trace := by
  have h1 : World.run_system 1 doubling w0 =
      .ok { registry := some emptyRegistry, counter := 0,
            trace := [.applyDeferred 3 false, .run 3 0 false, .init 3 false] } := by
    simp [World.run_system, SystemRegistry.run, boxedInit, boxedRun, boxedApplyDeferred,
      applyCmds, addEvent, freshBox, doubling, w0, emptyRegistry]
  have h2 : World.run_system 1 doubling
      { registry := some emptyRegistry, counter := 0,
        trace := [.applyDeferred 3 false, .run 3 0 false, .init 3 false] } =
      .ok { registry := some emptyRegistry, counter := 0,
            trace := [.applyDeferred 3 false, .run 3 0 false, .init 3 false,
                      .applyDeferred 3 false, .run 3 0 false, .init 3 false] } := by
    simp [World.run_system, SystemRegistry.run, boxedInit, boxedRun, boxedApplyDeferred,
      applyCmds, addEvent, freshBox, doubling, emptyRegistry]
  exact ⟨rfl, h1, h2,
    (c6_adhoc_fresh_state 1 emptyRegistry doubling w0).2.2 emptyRegistry rfl _ _ h1 h2⟩

/-- C7: `SystemRegistry::remove` deletes the binding of the given id if
present, leaves `last_id` and every other binding unchanged, is a silent
no-op when the id is unknown, and after a removal any `run_by_id` on that
id returns the unknown-identifier error. -/
theorem c7_remove_semantics (fuel : Nat) (r : SystemRegistry) (id : SystemId)
    (k : Nat) (w : World) :
    (r.remove id).last_id = r.last_id ∧
      lookupSys (r.remove id).systems id.val = none ∧
      (k ≠ id.val → lookupSys (r.remove id).systems k = lookupSys r.systems k) ∧
      (lookupSys r.systems id.val = none → r.remove id = r) ∧
      SystemRegistry.run_by_id fuel (r.remove id) id.val w =
        .ok (r.remove id, w, some (.systemIdNotRegistered ⟨id.val⟩)) := by
  refine ⟨rfl, ?_, ?_, ?_, ?_⟩
  · exact lookupSys_eraseSys_self r.systems id.val
  · intro hk
    exact lookupSys_eraseSys_ne r.systems hk
  · intro hnone
    rcases r with ⟨rl, rs⟩
    simp only [SystemRegistry.remove]
    rw [eraseSys_of_lookup_none rs id.val hnone]
  · exact run_by_id_unknown fuel (r.remove id) id.val w
      (lookupSys_eraseSys_self r.systems id.val)

/-- C7 witness: register `countUp` (id 1), remove id 1: `last_id` is still
1, the binding is gone, and `run_by_id` of 1 returns the
unknown-identifier error. -/
theorem c7_remove_semantics_witness :
    ((emptyRegistry.register countUp).1.remove ⟨1⟩).last_id = 1 ∧
      lookupSys ((emptyRegistry.register countUp).1.remove ⟨1⟩).systems 1 = none ∧
      SystemRegistry.run_by_id 1 ((emptyRegistry.register countUp).1.remove ⟨1⟩) 1 w0 =
        .ok ((emptyRegistry.register countUp).1.remove ⟨1⟩, w0,
             some (.systemIdNotRegistered ⟨1⟩)) := by
  have h := c7_remove_semantics 1 (emptyRegistry.register countUp).1 ⟨1⟩ 0 w0
  exact ⟨h.1, h.2.1, h.2.2.2.2⟩

/-- C8: applying the `RunSystemById` deferred command invokes `run_by_id`
on the wrapped identifier inside a resource scope; when `run_by_id` returns
the recoverable unknown-identifier error, the `.unwrap()` in the command
escalates it into an unconditional abort instead of propagating the error
value; when `run_by_id` succeeds, `apply` completes normally, reattaching
the registry. (If the registry resource is absent the guard aborts with the
recursion diagnostic before `run_by_id` is reached.) -/
theorem c8_run_by_id_command_escalates (fuel : Nat) (id : Nat) (w : World)
    (reg : SystemRegistry) :
    (w.registry = none →
      RunSystemById.apply fuel ⟨⟨id⟩⟩ w = .error panicMsg) ∧
    (w.registry = some reg → lookupSys reg.systems id = none →
      RunSystemById.apply fuel ⟨⟨id⟩⟩ w = .error unwrapMsg) ∧
    (w.registry = some reg → ∀ reg' w',
      SystemRegistry.run_by_id fuel reg id { w with registry := none } =
        .ok (reg', w', none) →
      RunSystemById.apply fuel ⟨⟨id⟩⟩ w = .ok { w' with registry := some reg' }) := by
  refine ⟨?_, ?_, ?_⟩
  · intro h
    exact runSystemByIdApply_absent fuel id w h
  · intro hreg hlook
    rw [RunSystemById.apply, runSystemByIdApply]
    simp only [hreg]
    rw [run_by_id_unknown fuel reg id _ hlook]
  · intro hreg reg' w' hrun
    rw [RunSystemById.apply, runSystemByIdApply]
    simp only [hreg]
    rw [hrun]

/-- C8 witness: applying `RunSystemById` for the unregistered id 7 on `w0`
aborts with the unwrap panic, while applying it for the registered id 1
(system `countUp`) completes normally. -/
theorem c8_run_by_id_command_escalates_witness :
    w0.registry = some emptyRegistry ∧
      lookupSys emptyRegistry.systems 7 = none ∧
      RunSystemById.apply 1 ⟨⟨7⟩⟩ w0 = .error unwrapMsg ∧
      RunSystemById.apply 1 ⟨⟨1⟩⟩
          { registry := some (emptyRegistry.register countUp).1, counter := 0, trace := [] } =
        .ok { registry := some
                { last_id := 1,
                  systems := [(1, true, { sd := countUp, locState := some 0, queued := [] })] },
              counter := 1,
              trace := [.applyDeferred 1 false, .run 1 0 false, .init 1 false] } := by
  have hrun : SystemRegistry.run_by_id 1 (emptyRegistry.register countUp).1 1
      { registry := none, counter := 0, trace := [] } =
      .ok ({ last_id := 1,
             systems := [(1, true, { sd := countUp, locState := some 0, queued := [] })] },
           { registry := none, counter := 1,
             trace := [.applyDeferred 1 false, .run 1 0 false, .init 1 false] },
           none) := by
    simp [SystemRegistry.run_by_id, SystemRegistry.register, emptyRegistry, u32Size,
      insertSys, eraseSys, lookupSys, updateSys, boxedInit, boxedRun, boxedApplyDeferred,
      applyCmds, addEvent, freshBox, countUp]
  refine ⟨rfl, rfl, ?_, ?_⟩
  · exact (c8_run_by_id_command_escalates 1 7 w0 emptyRegistry).2.1 rfl rfl
  · exact (c8_run_by_id_command_escalates 1 1
      { registry := some (emptyRegistry.register countUp).1, counter := 0, trace := [] }
      (emptyRegistry.register countUp).1).2.2 rfl
      { last_id := 1,
        systems := [(1, true, { sd := countUp, locState := some 0, queued := [] })] }
      { registry := none, counter := 1,
        trace := [.applyDeferred 1 false, .run 1 0 false, .init 1 false] }
      hrun

/-- C9: system identifiers are compared by identity: two `SystemId` values
are equal exactly when they wrap the same numeric value. -/
theorem c9_system_id_identity (a b : SystemId) : a = b ↔ a.val = b.val := by
  constructor
  · intro h
    rw [h]
  · intro h
    cases a
    cases b
    simpa using h
